import Mathlib

/-
Shallow embedding of the volume-lifecycle REST client of
terraform-provider-netapp-gcp (package gcp, file volume.go, plus
gcp/cvs/restapi/request.go).

The HTTP transport (`Client.CallAPIMethod`), the status-range check
(`apiResponseChecker`) and the JSON decoder (`json.Unmarshal`) live outside
the translated source and are abstracted as oracles: every HTTP exchange is
summarised by an `apiResponse` value that records the raw body, the outcome
of the status check, and the outcomes of the relevant decodings, and the
whole exchange may instead fail at the transport level (`CallOutcome`).
Pure control flow, error construction, retry budgets and the field
mutations of the request structure are translated line by line from the
source.
-/

namespace NetappGcp

/-- Literal from volume.go line 14: the deadline-exceeded transient message. -/
def contextDeadlineExceededErrorMessage : String :=
  "Post http://cloud-volumes-service.sde.svc.cluster.local/v2/Volumes: context deadline exceeded"

/-- Literal from volume.go line 15: the create-path job-spawn-exhaustion message. -/
def spawnJobCreationErrorMessage : String :=
  "Error creating volume - Cannot spawn additional jobs. Please wait for the ongoing jobs to finish and try again"

/-- Literal from volume.go line 16: the delete-path job-spawn-exhaustion message. -/
def spawnJobDeletionErrorMessage : String :=
  "Error deleting volume - Cannot spawn additional jobs. Please wait for the ongoing jobs to finish and try again"

structure nfs where
  Checked : Bool
deriving DecidableEq, Repr, Inhabited

structure dailySchedule where
  Hour : Int
  Minute : Int
  SnapshotsToKeep : Int
deriving DecidableEq, Repr, Inhabited

structure hourlySchedule where
  Minute : Int
  SnapshotsToKeep : Int
deriving DecidableEq, Repr, Inhabited

structure monthlySchedule where
  DaysOfMonth : String
  Hour : Int
  Minute : Int
  SnapshotsToKeep : Int
deriving DecidableEq, Repr, Inhabited

structure weeklySchedule where
  Day : String
  Hour : Int
  Minute : Int
  SnapshotsToKeep : Int
deriving DecidableEq, Repr, Inhabited

structure snapshotPolicy where
  Enabled : Bool
  DailySchedule : dailySchedule
  HourlySchedule : hourlySchedule
  MonthlySchedule : monthlySchedule
  WeeklySchedule : weeklySchedule
deriving DecidableEq, Repr, Inhabited

structure exportPolicyRule where
  Access : String
  AllowedClients : String
  Nfsv3 : nfs
  Nfsv4 : nfs
deriving DecidableEq, Repr, Inhabited

structure exportPolicy where
  Rules : List exportPolicyRule
deriving DecidableEq, Repr, Inhabited

structure mountPoints where
  Export : String
  Server : String
  ProtocolType : String
deriving DecidableEq, Repr, Inhabited

/-- volumeRequest: the user input for creating, requesting, updating a volume
(volume.go lines 20-34). -/
structure volumeRequest where
  Name : String
  Region : String
  CreationToken : String
  ProtocolTypes : List String
  Network : String
  Size : Int
  ServiceLevel : String
  SnapshotPolicy : snapshotPolicy
  ExportPolicy : exportPolicy
  VolumeID : String
  Zone : String
  StorageClass : String
  SharedVpcProjectNumber : String
deriving DecidableEq, Repr, Inhabited

/-- volumeResult: the control-plane view of a volume (volume.go lines 37-53). -/
structure volumeResult where
  Name : String
  Region : String
  CreationToken : String
  ProtocolTypes : List String
  Network : String
  Size : Int
  ServiceLevel : String
  SnapshotPolicy : snapshotPolicy
  ExportPolicy : exportPolicy
  VolumeID : String
  LifeCycleState : String
  LifeCycleStateDetails : String
  MountPoints : List mountPoints
  Zone : String
  StorageClass : String
deriving DecidableEq, Repr, Inhabited

structure listVolumeIDResult where
  VolID : String
deriving DecidableEq, Repr, Inhabited

structure listVolumeJobIDResult where
  JobID : listVolumeIDResult
deriving DecidableEq, Repr, Inhabited

/-- createVolumeResult: the api response for creating a volume (volume.go lines 56-60). -/
structure createVolumeResult where
  Name : listVolumeJobIDResult
  Code : Int
  Message : String
deriving DecidableEq, Repr, Inhabited

/-- Wire error envelope with numeric code and message. In the source this shape
appears twice, as `apiResponseCodeMessage` (volume.go lines 105-108, present in
src) and as `apiErrorResponse` (declared elsewhere in the repository); both
decode the same `code` and `message` fields, so one structure models both. -/
structure apiErrorResponse where
  Code : Int
  Message : String
deriving DecidableEq, Repr, Inhabited

/-- Summary of one HTTP exchange that returned a response. `checkerErr` is the
outcome of `apiResponseChecker` on the status code (`none` meaning the status
was in the success range); the `Option` fields are the outcomes of
`json.Unmarshal` of the raw body into each target shape (`none` meaning the
unmarshal failed). -/
structure apiResponse where
  raw : String
  checkerErr : Option String
  codeMsg : Option apiErrorResponse
  createResult : Option createVolumeResult
  volumeList : Option (List volumeResult)
deriving DecidableEq, Repr, Inhabited

/-- Outcome of one `Client.CallAPIMethod` invocation: either a transport-level
error (nonzero `err` in Go) or a response. -/
inductive CallOutcome where
  | transportErr (msg : String)
  | reply (resp : apiResponse)
deriving DecidableEq, Repr, Inhabited

/-- Modelled from the spec: `nextRandomInt(min, max)` is absent from src; per
spec section 9 it draws uniformly from the inclusive documented bounds, so it
is modelled as a function of an explicit random seed that always lands in
`[lo, hi]`. -/
def nextRandomInt (lo hi seed : Nat) : Nat :=
  lo + seed % (hi + 1 - lo)

/-- Go function results are a (value, error) pair; `return createVolumeResult{}, responseError`
with a possibly-nil error is modelled by this conversion. -/
def errToResult (e : Option String) : Except String createVolumeResult :=
  match e with
  | some msg => Except.error msg
  | none => Except.ok default

/-- Same conversion for `deleteVolume`, whose only result is the error. -/
def errToUnit (e : Option String) : Except String Unit :=
  match e with
  | some msg => Except.error msg
  | none => Except.ok ()

/-- Decoding of the final response body into `createVolumeResult`
(volume.go lines 329-335). -/
def decodeCreateResult (resp : apiResponse) : Except String createVolumeResult :=
  match resp.createResult with
  | some r => Except.ok r
  | none => Except.error ("failed to unmarshal response from createVolume")

/-- Trace of the retry loop inside `createVolume`: final result, the request
parameters submitted by each `CallAPIMethod` invocation of the loop in order,
and the sleep durations performed before each invocation. -/
structure createLoopTrace where
  result : Except String createVolumeResult
  calls : List volumeRequest
  sleeps : List Nat
deriving Repr

/-- The retry loop of `createVolume` (volume.go lines 267-292 for the
job-spawn kind with lo=30, hi=50, retries=10, and lines 294-319 for the
deadline-exceeded kind with lo=5, hi=10, retries=5; the two loops are textually
identical up to those constants). `lastErr` is the current value of the Go
variable `responseError`; `k` is the index of the next `CallAPIMethod`
invocation in the oracle. On loop exhaustion, control falls through to
volume.go line 324 where the initial envelope code (500) sends back the last
`responseError`, modelled by `errToResult lastErr`. -/
def createVolumeRetryLoop (lo hi : Nat) (params : volumeRequest)
    (call : Nat → CallOutcome) (rand : Nat → Nat) :
    Option String → Nat → Nat → createLoopTrace
  | lastErr, _, 0 => { result := errToResult lastErr, calls := [], sleeps := [] }
  | _, k, Nat.succ retries =>
    let s := nextRandomInt lo hi (rand k)
    match call k with
    | CallOutcome.transportErr e =>
      { result := Except.error e, calls := [params], sleeps := [s] }
    | CallOutcome.reply resp =>
      match resp.codeMsg with
      | none => { result := Except.error resp.raw, calls := [params], sleeps := [s] }
      | some env =>
        if env.Code = 0 then
          { result := (match resp.createResult with
                       | some r => Except.ok r
                       | none => Except.error resp.raw),
            calls := [params], sleeps := [s] }
        else if env.Code ≠ 500 then
          { result := errToResult resp.checkerErr, calls := [params], sleeps := [s] }
        else
          let t := createVolumeRetryLoop lo hi params call rand resp.checkerErr (k + 1) retries
          { result := t.result, calls := params :: t.calls, sleeps := s :: t.sleeps }

/-- The creation-token mint step of `createVolume` (volume.go lines 233-240):
if the caller supplied no token, a token is fetched via
`createVolumeCreationToken` (whose outcome is the oracle `mint`) and written
into the request; otherwise the request is untouched. -/
def mintTokenStep (mint : Except String volumeResult) (request0 : volumeRequest) :
    Except String volumeRequest :=
  if request0.CreationToken = "" then
    match mint with
    | Except.error e => Except.error e
    | Except.ok tok => Except.ok { request0 with CreationToken := tok.CreationToken }
  else Except.ok request0

/-- The network-rewrite step of `createVolume` (volume.go lines 242-248):
the project is the shared-VPC override when present, else the project of the
client, and the network field is rewritten to its fully qualified form. -/
def resolveNetwork (project : String) (request1 : volumeRequest) : volumeRequest :=
  let projectID := if request1.SharedVpcProjectNumber ≠ "" then request1.SharedVpcProjectNumber
                   else project
  { request1 with Network := "projects/" ++ projectID ++ "/global/networks/" ++ request1.Network }

/-- Trace of a whole `createVolume` execution: result, the parameters of every
`CallAPIMethod` POST in order, every sleep performed, and the final state of
the (pointer-passed, hence mutated) request of the caller. -/
structure createTrace where
  result : Except String createVolumeResult
  calls : List volumeRequest
  sleeps : List Nat
  finalRequest : volumeRequest
deriving Repr

/-- `createVolume` (volume.go lines 231-336). `mint` is the oracle for the
`createVolumeCreationToken` sub-call; `call` is the oracle for the POST
exchanges, indexed in submission order; `rand` supplies the random seeds.
`volType` only shapes the URL, which the transport oracle abstracts. -/
def createVolume (project : String) (mint : Except String volumeResult)
    (call : Nat → CallOutcome) (rand : Nat → Nat)
    (request0 : volumeRequest) (volType : String) : createTrace :=
  match mintTokenStep mint request0 with
  | Except.error e =>
    { result := Except.error e, calls := [], sleeps := [], finalRequest := request0 }
  | Except.ok request1 =>
    let params := resolveNetwork project request1
    match call 0 with
    | CallOutcome.transportErr e =>
      { result := Except.error e, calls := [params], sleeps := [], finalRequest := params }
    | CallOutcome.reply resp =>
      match resp.checkerErr with
      | none =>
        { result := decodeCreateResult resp, calls := [params], sleeps := [],
          finalRequest := params }
      | some ce =>
        match resp.codeMsg with
        | none =>
          { result := Except.error resp.raw, calls := [params], sleeps := [],
            finalRequest := params }
        | some env =>
          if env.Code = 500 then
            if env.Message = spawnJobCreationErrorMessage then
              let t := createVolumeRetryLoop 30 50 params call rand (some ce) 1 10
              { result := t.result, calls := params :: t.calls, sleeps := t.sleeps,
                finalRequest := params }
            else if env.Message = contextDeadlineExceededErrorMessage then
              let t := createVolumeRetryLoop 5 10 params call rand (some ce) 1 5
              { result := t.result, calls := params :: t.calls, sleeps := t.sleeps,
                finalRequest := params }
            else
              { result := Except.error ce, calls := [params], sleeps := [],
                finalRequest := params }
          else if env.Code ≥ 300 ∨ env.Code < 200 then
            { result := Except.error ce, calls := [params], sleeps := [],
              finalRequest := params }
          else
            { result := decodeCreateResult resp, calls := [params], sleeps := [],
              finalRequest := params }

/-- Trace of the retry loop inside `deleteVolume` (the DELETE calls carry no
body, so only their count is recorded). -/
structure deleteLoopTrace where
  result : Except String Unit
  calls : Nat
  sleeps : List Nat
deriving Repr

/-- The retry loop of `deleteVolume` (volume.go lines 356-381): lo=30, hi=50,
retries=10, keyed to the delete-path job-spawn-exhaustion message. -/
def deleteVolumeRetryLoop (call : Nat → CallOutcome) (rand : Nat → Nat) :
    Option String → Nat → Nat → deleteLoopTrace
  | lastErr, _, 0 => { result := errToUnit lastErr, calls := 0, sleeps := [] }
  | _, k, Nat.succ retries =>
    let s := nextRandomInt 30 50 (rand k)
    match call k with
    | CallOutcome.transportErr e => { result := Except.error e, calls := 1, sleeps := [s] }
    | CallOutcome.reply resp =>
      match resp.codeMsg with
      | none => { result := Except.error resp.raw, calls := 1, sleeps := [s] }
      | some env =>
        if env.Code = 0 then
          { result := (match resp.createResult with
                       | some _ => Except.ok ()
                       | none => Except.error resp.raw),
            calls := 1, sleeps := [s] }
        else if env.Code ≠ 500 then
          { result := errToUnit resp.checkerErr, calls := 1, sleeps := [s] }
        else
          let t := deleteVolumeRetryLoop call rand resp.checkerErr (k + 1) retries
          { result := t.result, calls := t.calls + 1, sleeps := s :: t.sleeps }

structure deleteTrace where
  result : Except String Unit
  calls : Nat
  sleeps : List Nat
deriving Repr

/-- Final decode of `deleteVolume` (volume.go lines 392-398): the body is
unmarshalled into the error envelope; failure returns the raw body text,
success returns nil. -/
def deleteFinalDecode (resp : apiResponse) : Except String Unit :=
  match resp.codeMsg with
  | some _ => Except.ok ()
  | none => Except.error resp.raw

/-- `deleteVolume` (volume.go lines 338-399). -/
def deleteVolume (call : Nat → CallOutcome) (rand : Nat → Nat)
    (request : volumeRequest) : deleteTrace :=
  match call 0 with
  | CallOutcome.transportErr e => { result := Except.error e, calls := 1, sleeps := [] }
  | CallOutcome.reply resp =>
    match resp.checkerErr with
    | none => { result := deleteFinalDecode resp, calls := 1, sleeps := [] }
    | some ce =>
      match resp.codeMsg with
      | none => { result := Except.error resp.raw, calls := 1, sleeps := [] }
      | some env =>
        if env.Code = 500 then
          if env.Message = spawnJobDeletionErrorMessage then
            let t := deleteVolumeRetryLoop call rand (some ce) 1 10
            { result := t.result, calls := t.calls + 1, sleeps := t.sleeps }
          else { result := Except.error ce, calls := 1, sleeps := [] }
        else if env.Code ≥ 300 ∨ env.Code < 200 then
          { result := Except.error ce, calls := 1, sleeps := [] }
        else { result := deleteFinalDecode resp, calls := 1, sleeps := [] }

/-- `updateVolume` (volume.go lines 426-452): single non-retried submission;
the decoded `apiResponseCodeMessage` forces failure when the code is neither
0 nor 200, or the message is non-empty. The `request` argument shapes only
the submitted parameters and URL, which the transport oracle abstracts. -/
def updateVolume (call : CallOutcome) (request : volumeRequest) : Except String Unit :=
  match call with
  | CallOutcome.transportErr e => Except.error e
  | CallOutcome.reply resp =>
    match resp.checkerErr with
    | some ce => Except.error ce
    | none =>
      match resp.codeMsg with
      | none => Except.error ("failed to unmarshal response from updateVolume")
      | some result =>
        if (result.Code ≠ 0 ∧ result.Code ≠ 200) ∨ result.Message ≠ "" then
          Except.error ("code: " ++ toString result.Code ++ ", message: " ++ result.Message)
        else Except.ok ()

/-- The caller-side disambiguation loop of `getVolumeByNameOrCreationToken`
(volume.go lines 204-228), with the `count` and `resultVolume` accumulators of
the source made explicit. -/
def getVolumeLookupLoop (volume : volumeRequest) :
    List volumeResult → Nat → volumeResult → Except String volumeResult
  | [], count, resultVolume =>
    if volume.CreationToken ≠ "" then
      Except.error ("Given CreationToken does not exist : " ++ volume.CreationToken)
    else if count > 1 then
      Except.error ("Found more than one volume : " ++ volume.Name)
    else if count = 0 then
      Except.error ("No volume found for : " ++ volume.Name)
    else Except.ok resultVolume
  | eachVolume :: rest, count, resultVolume =>
    if volume.CreationToken ≠ "" ∧ eachVolume.CreationToken = volume.CreationToken then
      if volume.Name ≠ "" ∧ eachVolume.Name = volume.Name then Except.ok eachVolume
      else if volume.Name ≠ "" ∧ eachVolume.Name ≠ volume.Name then
        Except.error ("Given CreationToken does not match with given volume name : " ++ volume.Name)
      else Except.ok eachVolume
    else if volume.CreationToken = "" ∧ volume.Name ≠ "" ∧ eachVolume.Name = volume.Name then
      getVolumeLookupLoop volume rest (count + 1) eachVolume
    else
      getVolumeLookupLoop volume rest count resultVolume

/-- `getVolumeByNameOrCreationToken` (volume.go lines 179-229). The second
component of the result counts the `CallAPIMethod` invocations issued. -/
def getVolumeByNameOrCreationToken (call : CallOutcome) (volume : volumeRequest) :
    Except String volumeResult × Nat :=
  if volume.Name = "" ∧ volume.CreationToken = "" then
    (Except.error ("Either CreationToken or volume name or both are required"), 0)
  else
    match call with
    | CallOutcome.transportErr e => (Except.error e, 1)
    | CallOutcome.reply resp =>
      match resp.checkerErr with
      | some ce => (Except.error ce, 1)
      | none =>
        match resp.volumeList with
        | none => (Except.error ("failed to unmarshal response from getVolumeByNameOrCreationToken"), 1)
        | some result => (getVolumeLookupLoop volume result 0 default, 1)

/-- Request as in restapi/request.go lines 14-17, with the parameter payload
kept generic; JSON marshalling of the payload is abstracted by an oracle. -/
structure Request (α : Type) where
  Method : String
  Params : α

structure HTTPRequest where
  method : String
  url : String
  body : Option String
  headers : List (String × String)
deriving DecidableEq, Repr

/-- The credential and header stage of `BuildHTTPReq` (restapi/request.go
lines 40-61): key bytes come inline from `credentials` when non-empty, else
from reading the service-account file; the JWT minted from them is placed in
the bearer-authorization header next to the JSON content-type header. -/
def addAuthHeaders (readFile : String → Except String String)
    (mintJWT : String → String → Except String String)
    (serviceAccount credentials audience : String)
    (req : HTTPRequest) : Except String HTTPRequest :=
  let keyBytesE : Except String String :=
    if credentials ≠ "" then Except.ok credentials
    else
      match readFile serviceAccount with
      | Except.error e => Except.error ("Unable to read service account key file  " ++ e)
      | Except.ok kb => Except.ok kb
  match keyBytesE with
  | Except.error e => Except.error e
  | Except.ok keyBytes =>
    match mintJWT keyBytes audience with
    | Except.error e => Except.error ("Unable to generate JWT token: " ++ e)
    | Except.ok jwt =>
      Except.ok { req with
        headers := [("Content-Type", "application/json"), ("Authorization", "Bearer " ++ jwt)] }

/-- `BuildHTTPReq` (restapi/request.go lines 20-62). `marshal` abstracts
`json.Marshal`, `readFile` abstracts `ioutil.ReadFile`, and `mintJWT`
abstracts the two-stage google JWT token source construction and token
issuance, taking the key bytes and audience to the minted access token. -/
def BuildHTTPReq {α : Type} (marshal : α → Except String String)
    (readFile : String → Except String String)
    (mintJWT : String → String → Except String String)
    (r : Request α)
    (host serviceAccount credentials audience baseURL : String) :
    Except String HTTPRequest :=
  let url := host ++ baseURL
  if r.Method ≠ "GET" ∧ r.Method ≠ "DELETE" then
    match marshal r.Params with
    | Except.error e => Except.error e
    | Except.ok bodyJSON =>
      addAuthHeaders readFile mintJWT serviceAccount credentials audience
        { method := r.Method, url := url, body := some bodyJSON, headers := [] }
  else
    addAuthHeaders readFile mintJWT serviceAccount credentials audience
      { method := r.Method, url := url, body := none, headers := [] }

/-! ### Helper lemmas about the retry loops and the create pipeline -/

lemma nextRandomInt_bounds (lo hi seed : Nat) (h : lo ≤ hi) :
    lo ≤ nextRandomInt lo hi seed ∧ nextRandomInt lo hi seed ≤ hi := by
  unfold nextRandomInt
  have hm : seed % (hi + 1 - lo) < hi + 1 - lo := Nat.mod_lt seed (by omega)
  omega

lemma createVolumeRetryLoop_sleep_mem (lo hi : Nat) (params : volumeRequest)
    (call : Nat → CallOutcome) (rand : Nat → Nat) :
    ∀ n k lastErr s, s ∈ (createVolumeRetryLoop lo hi params call rand lastErr k n).sleeps →
      ∃ seed, s = nextRandomInt lo hi seed := by
  intro n
  induction n with
  | zero =>
    intro k lastErr s hs
    simp [createVolumeRetryLoop] at hs
  | succ m ih =>
    intro k lastErr s hs
    simp only [createVolumeRetryLoop] at hs
    cases hc : call k with
    | transportErr e =>
      simp only [hc] at hs
      simp at hs
      exact ⟨rand k, hs⟩
    | reply resp =>
      simp only [hc] at hs
      cases hcm : resp.codeMsg with
      | none =>
        simp only [hcm] at hs
        simp at hs
        exact ⟨rand k, hs⟩
      | some env =>
        simp only [hcm] at hs
        split_ifs at hs
        · simp at hs
          exact ⟨rand k, hs⟩
        · simp at hs
          exact ⟨rand k, hs⟩
        · simp only [List.mem_cons] at hs
          cases hs with
          | inl h1 => exact ⟨rand k, h1⟩
          | inr h2 => exact ih (k + 1) resp.checkerErr s h2

lemma createVolumeRetryLoop_calls_mem (lo hi : Nat) (params : volumeRequest)
    (call : Nat → CallOutcome) (rand : Nat → Nat) :
    ∀ n k lastErr p, p ∈ (createVolumeRetryLoop lo hi params call rand lastErr k n).calls →
      p = params := by
  intro n
  induction n with
  | zero =>
    intro k lastErr p hp
    simp [createVolumeRetryLoop] at hp
  | succ m ih =>
    intro k lastErr p hp
    simp only [createVolumeRetryLoop] at hp
    cases hc : call k with
    | transportErr e =>
      simp only [hc] at hp
      simpa using hp
    | reply resp =>
      simp only [hc] at hp
      cases hcm : resp.codeMsg with
      | none =>
        simp only [hcm] at hp
        simpa using hp
      | some env =>
        simp only [hcm] at hp
        split_ifs at hp
        · simpa using hp
        · simpa using hp
        · simp only [List.mem_cons] at hp
          cases hp with
          | inl h1 => exact h1
          | inr h2 => exact ih (k + 1) resp.checkerErr p h2

lemma createVolumeRetryLoop_calls_pos (lo hi : Nat) (params : volumeRequest)
    (call : Nat → CallOutcome) (rand : Nat → Nat) (lastErr : Option String) (k n : Nat) :
    1 ≤ (createVolumeRetryLoop lo hi params call rand lastErr k (n + 1)).calls.length := by
  simp only [createVolumeRetryLoop]
  cases hc : call k with
  | transportErr e => simp [hc]
  | reply resp =>
    simp only [hc]
    cases hcm : resp.codeMsg with
    | none => simp [hcm]
    | some env =>
      simp only [hcm]
      split_ifs <;> simp

lemma createVolumeRetryLoop_step_busy (lo hi : Nat) (params : volumeRequest)
    (call : Nat → CallOutcome) (rand : Nat → Nat) (lastErr : Option String) (k n : Nat)
    (resp : apiResponse) (env : apiErrorResponse)
    (hc : call k = CallOutcome.reply resp) (hcm : resp.codeMsg = some env)
    (hcode : env.Code = 500) :
    createVolumeRetryLoop lo hi params call rand lastErr k (n + 1) =
      { result := (createVolumeRetryLoop lo hi params call rand resp.checkerErr (k + 1) n).result,
        calls := params :: (createVolumeRetryLoop lo hi params call rand resp.checkerErr (k + 1) n).calls,
        sleeps := nextRandomInt lo hi (rand k) ::
          (createVolumeRetryLoop lo hi params call rand resp.checkerErr (k + 1) n).sleeps } := by
  simp [createVolumeRetryLoop, hc, hcm, hcode]

lemma createVolumeRetryLoop_allBusy (lo hi : Nat) (params : volumeRequest)
    (call : Nat → CallOutcome) (rand : Nat → Nat) (ce : Nat → String) :
    ∀ m k lastErr,
      (∀ j, j ≤ m → ∃ resp env, call (k + j) = CallOutcome.reply resp ∧
          resp.checkerErr = some (ce (k + j)) ∧ resp.codeMsg = some env ∧ env.Code = 500) →
      (createVolumeRetryLoop lo hi params call rand lastErr k (m + 1)).result
          = Except.error (ce (k + m)) ∧
      (createVolumeRetryLoop lo hi params call rand lastErr k (m + 1)).calls
          = List.replicate (m + 1) params ∧
      (createVolumeRetryLoop lo hi params call rand lastErr k (m + 1)).sleeps.length = m + 1 := by
  intro m
  induction m with
  | zero =>
    intro k lastErr h
    obtain ⟨resp, env, hc, hck, hcm, hcode⟩ := h 0 (Nat.le_refl 0)
    simp only [Nat.add_zero] at hc hck hcm
    simp only [createVolumeRetryLoop, hc, hcm, hcode]
    simp [createVolumeRetryLoop, errToResult, hck, List.replicate]
  | succ mm ih =>
    intro k lastErr h
    obtain ⟨resp, env, hc, hck, hcm, hcode⟩ := h 0 (Nat.zero_le _)
    simp only [Nat.add_zero] at hc hck hcm
    have hrest : ∀ j, j ≤ mm → ∃ resp env, call (k + 1 + j) = CallOutcome.reply resp ∧
        resp.checkerErr = some (ce (k + 1 + j)) ∧ resp.codeMsg = some env ∧ env.Code = 500 := by
      intro j hj
      have hkj : k + 1 + j = k + (j + 1) := by omega
      rw [hkj]
      exact h (j + 1) (by omega)
    have hih := ih (k + 1) resp.checkerErr hrest
    have hidx : k + 1 + mm = k + (mm + 1) := by omega
    rw [hidx] at hih
    rw [createVolumeRetryLoop_step_busy lo hi params call rand lastErr k (mm + 1) resp env hc hcm
      hcode]
    refine ⟨hih.1, ?_, ?_⟩
    · show params :: (createVolumeRetryLoop lo hi params call rand resp.checkerErr (k + 1)
        (mm + 1)).calls = _
      rw [hih.2.1]
      simp [List.replicate_succ]
    · show (nextRandomInt lo hi (rand k) :: (createVolumeRetryLoop lo hi params call rand
        resp.checkerErr (k + 1) (mm + 1)).sleeps).length = _
      simp [hih.2.2]

lemma deleteVolumeRetryLoop_calls_pos (call : Nat → CallOutcome) (rand : Nat → Nat)
    (lastErr : Option String) (k n : Nat) :
    1 ≤ (deleteVolumeRetryLoop call rand lastErr k (n + 1)).calls := by
  simp only [deleteVolumeRetryLoop]
  cases hc : call k with
  | transportErr e => simp [hc]
  | reply resp =>
    simp only [hc]
    cases hcm : resp.codeMsg with
    | none => simp [hcm]
    | some env =>
      simp only [hcm]
      split_ifs <;> simp

lemma mintTokenStep_shape (mint : Except String volumeResult)
    (request0 request1 : volumeRequest)
    (h : mintTokenStep mint request0 = Except.ok request1) :
    request1 = { request0 with CreationToken := request1.CreationToken } := by
  unfold mintTokenStep at h
  split_ifs at h
  · cases hm : mint with
    | error e => rw [hm] at h; simp at h
    | ok tok =>
      rw [hm] at h
      simp only [Except.ok.injEq] at h
      subst h
      rfl
  · simp only [Except.ok.injEq] at h
    subst h
    rfl

lemma mintTokenStep_token (mint : Except String volumeResult)
    (request0 request1 : volumeRequest)
    (h : mintTokenStep mint request0 = Except.ok request1) :
    (request0.CreationToken ≠ "" → request1.CreationToken = request0.CreationToken) ∧
    (∀ v, request0.CreationToken = "" → mint = Except.ok v →
      request1.CreationToken = v.CreationToken) := by
  unfold mintTokenStep at h
  split_ifs at h with h0
  · cases hm : mint with
    | error e => rw [hm] at h; simp at h
    | ok tok =>
      rw [hm] at h
      simp only [Except.ok.injEq] at h
      subst h
      constructor
      · intro hne; exact absurd h0 hne
      · intro v _ hv
        try rw [hm] at hv
        have hv2 : tok = v := by injection hv
        subst hv2
        rfl
  · simp only [Except.ok.injEq] at h
    subst h
    constructor
    · intro _; rfl
    · intro v hv; exact absurd hv h0

lemma createVolume_calls_mem (project : String) (mint : Except String volumeResult)
    (call : Nat → CallOutcome) (rand : Nat → Nat)
    (request0 : volumeRequest) (volType : String) (p : volumeRequest)
    (hp : p ∈ (createVolume project mint call rand request0 volType).calls) :
    ∃ request1, mintTokenStep mint request0 = Except.ok request1 ∧
      p = resolveNetwork project request1 := by
  unfold createVolume at hp
  cases hmt : mintTokenStep mint request0 with
  | error e => simp only [hmt] at hp; simp at hp
  | ok request1 =>
    simp only [hmt] at hp
    refine ⟨request1, rfl, ?_⟩
    cases hc : call 0 with
    | transportErr e =>
      simp only [hc] at hp
      simpa using hp
    | reply resp =>
      simp only [hc] at hp
      cases hck : resp.checkerErr with
      | none =>
        simp only [hck] at hp
        simpa using hp
      | some ce =>
        simp only [hck] at hp
        cases hcm : resp.codeMsg with
        | none =>
          simp only [hcm] at hp
          simpa using hp
        | some env =>
          simp only [hcm] at hp
          split_ifs at hp
          · simp only [List.mem_cons] at hp
            cases hp with
            | inl h1 => exact h1
            | inr h2 =>
              exact createVolumeRetryLoop_calls_mem 30 50 _ call rand 10 1 (some ce) p h2
          · simp only [List.mem_cons] at hp
            cases hp with
            | inl h1 => exact h1
            | inr h2 =>
              exact createVolumeRetryLoop_calls_mem 5 10 _ call rand 5 1 (some ce) p h2
          · simpa using hp
          · simpa using hp
          · simpa using hp

lemma createVolume_finalRequest_ok (project : String) (mint : Except String volumeResult)
    (call : Nat → CallOutcome) (rand : Nat → Nat)
    (request0 : volumeRequest) (volType : String) (request1 : volumeRequest)
    (hmt : mintTokenStep mint request0 = Except.ok request1) :
    (createVolume project mint call rand request0 volType).finalRequest
      = resolveNetwork project request1 := by
  unfold createVolume
  simp only [hmt]
  cases hc : call 0 with
  | transportErr e => simp
  | reply resp =>
    cases hck : resp.checkerErr with
    | none => simp [hck]
    | some ce =>
      cases hcm : resp.codeMsg with
      | none => simp [hck, hcm]
      | some env =>
        simp only [hck, hcm]
        split_ifs <;> simp

lemma createVolume_finalRequest_err (project : String) (mint : Except String volumeResult)
    (call : Nat → CallOutcome) (rand : Nat → Nat)
    (request0 : volumeRequest) (volType : String) (e : String)
    (hmt : mintTokenStep mint request0 = Except.error e) :
    (createVolume project mint call rand request0 volType).finalRequest = request0 := by
  unfold createVolume
  simp only [hmt]

/-! ### Concrete fixtures used by counterexamples and witnesses -/

/-- A response carrying the create-path job-spawn-exhaustion transient signal. -/
def c1resp : apiResponse :=
  { raw := "busy", checkerErr := some ("remote error"),
    codeMsg := some { Code := 500, Message := spawnJobCreationErrorMessage },
    createResult := none, volumeList := none }

/-- A caller request that already carries a creation token. -/
def c1request : volumeRequest :=
  { (default : volumeRequest) with CreationToken := "tok" }

/-- A success-status response decoding to code 200 with empty message. -/
def c4resp : apiResponse :=
  { raw := "", checkerErr := none, codeMsg := some { Code := 200, Message := "" },
    createResult := none, volumeList := none }

/-- A success-status response decoding to code 200 with message partial. -/
def c4respPartial : apiResponse :=
  { raw := "", checkerErr := none, codeMsg := some { Code := 200, Message := "partial" },
    createResult := none, volumeList := none }

/-! ### Claim theorems -/

/-- C1 (amended): when the initial create response is classified as the
create-job-exhaustion transient condition and every subsequent response is
also classified transient, `createVolume` performs exactly 11 attempts in
total (the initial attempt plus 10 retries), sleeps a randomized interval of
30 to 50 seconds before each of the 10 retries, and then returns a failure
carrying the last observed error. -/
theorem createVolume_createExhaustion_elevenAttempts
    (project : String) (mint : Except String volumeResult)
    (call : Nat → CallOutcome) (rand : Nat → Nat)
    (request0 : volumeRequest) (volType : String) (ce : Nat → String)
    (h0 : request0.CreationToken ≠ "")
    (hbusy : ∀ j, j ≤ 10 → ∃ resp, call j = CallOutcome.reply resp ∧
        resp.checkerErr = some (ce j) ∧
        resp.codeMsg = some { Code := 500, Message := spawnJobCreationErrorMessage }) :
    (createVolume project mint call rand request0 volType).calls.length = 11 ∧
    (createVolume project mint call rand request0 volType).sleeps.length = 10 ∧
    (∀ s ∈ (createVolume project mint call rand request0 volType).sleeps, 30 ≤ s ∧ s ≤ 50) ∧
    (createVolume project mint call rand request0 volType).result = Except.error (ce 10) := by
  have hmt : mintTokenStep mint request0 = Except.ok request0 := by
    unfold mintTokenStep
    rw [if_neg h0]
  obtain ⟨resp0, hc0, hck0, hcm0⟩ := hbusy 0 (by omega)
  have htr : createVolume project mint call rand request0 volType =
      { result := (createVolumeRetryLoop 30 50 (resolveNetwork project request0) call rand
          (some (ce 0)) 1 10).result,
        calls := resolveNetwork project request0 ::
          (createVolumeRetryLoop 30 50 (resolveNetwork project request0) call rand
            (some (ce 0)) 1 10).calls,
        sleeps := (createVolumeRetryLoop 30 50 (resolveNetwork project request0) call rand
          (some (ce 0)) 1 10).sleeps,
        finalRequest := resolveNetwork project request0 } := by
    unfold createVolume
    simp [hmt, hc0, hck0, hcm0]
  have hbusy2 : ∀ j, j ≤ 9 → ∃ resp env, call (1 + j) = CallOutcome.reply resp ∧
      resp.checkerErr = some (ce (1 + j)) ∧ resp.codeMsg = some env ∧ env.Code = 500 := by
    intro j hj
    have hidx : (1 : Nat) + j = j + 1 := by omega
    rw [hidx]
    obtain ⟨resp, hc, hck, hcm⟩ := hbusy (j + 1) (by omega)
    exact ⟨resp, _, hc, hck, hcm, rfl⟩
  have hloop := createVolumeRetryLoop_allBusy 30 50 (resolveNetwork project request0) call rand
    ce 9 1 (some (ce 0)) hbusy2
  rw [htr]
  refine ⟨?_, ?_, ?_, ?_⟩
  · show (resolveNetwork project request0 :: _).length = 11
    rw [hloop.2.1]
    simp
  · exact hloop.2.2
  · intro s hs
    obtain ⟨seed, hseed⟩ := createVolumeRetryLoop_sleep_mem 30 50 (resolveNetwork project request0)
      call rand 10 1 (some (ce 0)) s hs
    rw [hseed]
    exact nextRandomInt_bounds 30 50 seed (by omega)
  · simpa using hloop.1

/-- C1 counterexample: in a concrete run where every response is classified
as the create-job-exhaustion transient condition, `createVolume` performs 11
CallAPIMethod invocations, not the 10 the claim states. -/
theorem createVolume_createExhaustion_counterexample :
    (createVolume ("proj") (Except.ok default) (fun _ => CallOutcome.reply c1resp)
        (fun _ => 0) c1request ("Volumes")).calls.length = 11 ∧
    ¬ (createVolume ("proj") (Except.ok default) (fun _ => CallOutcome.reply c1resp)
        (fun _ => 0) c1request ("Volumes")).calls.length = 10 := by
  have h : (createVolume ("proj") (Except.ok default) (fun _ => CallOutcome.reply c1resp)
      (fun _ => 0) c1request ("Volumes")).calls.length = 11 := by rfl
  exact ⟨h, by omega⟩

/-- C1 witness: the amended eleven-attempt theorem applied at a concrete
all-transient run. -/
theorem createVolume_createExhaustion_elevenAttempts_witness :
    (createVolume ("proj") (Except.ok default) (fun _ => CallOutcome.reply c1resp)
        (fun _ => 0) c1request ("Volumes")).calls.length = 11 ∧
    (createVolume ("proj") (Except.ok default) (fun _ => CallOutcome.reply c1resp)
        (fun _ => 0) c1request ("Volumes")).result = Except.error ("remote error") := by
  have h := createVolume_createExhaustion_elevenAttempts ("proj") (Except.ok default)
    (fun _ => CallOutcome.reply c1resp) (fun _ => 0) c1request ("Volumes")
    (fun _ => "remote error") (by decide) (fun j _ => ⟨c1resp, rfl, rfl, rfl⟩)
  exact ⟨h.1, h.2.2.2⟩

/-- C4 (amended): for an update whose HTTP exchange succeeds at the status
level and whose body decodes, the result is a failure iff the decoded code is
neither 0 nor 200, or the decoded message is non-empty; a decoded body with
code 0 and empty message yields success, code 200 with message partial yields
failure, and additionally code 200 with empty message yields success. -/
theorem updateVolume_failure_iff (resp : apiResponse) (request : volumeRequest)
    (env : apiErrorResponse)
    (hck : resp.checkerErr = none) (hcm : resp.codeMsg = some env) :
    updateVolume (CallOutcome.reply resp) request = Except.ok () ↔
      ((env.Code = 0 ∨ env.Code = 200) ∧ env.Message = "") := by
  unfold updateVolume
  simp only [hck, hcm]
  split_ifs with h
  · simp only [reduceCtorEq, false_iff]
    tauto
  · simp only [true_iff]
    tauto

/-- C4 counterexample: a decoded body with code 200 (nonzero) and empty
message is treated as success, contradicting the claim that any nonzero
decoded code yields failure. -/
theorem updateVolume_counterexample :
    updateVolume (CallOutcome.reply c4resp) default = Except.ok () ∧ (200 : Int) ≠ 0 := by
  exact ⟨rfl, by decide⟩

/-- C4 witness: the amended characterization applied at the two concrete
decoded bodies code 200 with empty message and code 200 with message
partial. -/
theorem updateVolume_failure_iff_witness :
    updateVolume (CallOutcome.reply c4resp) default = Except.ok () ∧
    ¬ (updateVolume (CallOutcome.reply c4respPartial) default = Except.ok ()) := by
  constructor
  · exact (updateVolume_failure_iff c4resp default { Code := 200, Message := "" } rfl rfl).mpr
      (by simp)
  · intro h
    have h2 := (updateVolume_failure_iff c4respPartial default
      { Code := 200, Message := "partial" } rfl rfl).mp h
    simp at h2

/-- C10: when both the name and the creation token are empty,
`getVolumeByNameOrCreationToken` fails immediately with an error and issues
no HTTP request. -/
theorem getVolumeByNameOrCreationToken_emptyArgs
    (call : CallOutcome) (volume : volumeRequest)
    (hn : volume.Name = "") (ht : volume.CreationToken = "") :
    getVolumeByNameOrCreationToken call volume =
      (Except.error ("Either CreationToken or volume name or both are required"), 0) := by
  unfold getVolumeByNameOrCreationToken
  rw [if_pos ⟨hn, ht⟩]

/-- C10 witness: the empty-arguments theorem applied at the default request
and a concrete transport outcome. -/
theorem getVolumeByNameOrCreationToken_emptyArgs_witness :
    getVolumeByNameOrCreationToken (CallOutcome.transportErr ("x")) default =
      (Except.error ("Either CreationToken or volume name or both are required"), 0) :=
  getVolumeByNameOrCreationToken_emptyArgs (CallOutcome.transportErr ("x")) default rfl rfl

/-- C2: across all attempts of one createVolume execution, the creation-token
field of the outgoing request parameters is identical: it equals the caller
token when one was supplied, and the minted token otherwise, and is never
changed during the retry sequence. -/
theorem createVolume_creationToken_constant
    (project : String) (mint : Except String volumeResult)
    (call : Nat → CallOutcome) (rand : Nat → Nat)
    (request0 : volumeRequest) (volType : String) (p q : volumeRequest)
    (hp : p ∈ (createVolume project mint call rand request0 volType).calls)
    (hq : q ∈ (createVolume project mint call rand request0 volType).calls) :
    p.CreationToken = q.CreationToken ∧
    (request0.CreationToken ≠ "" → p.CreationToken = request0.CreationToken) ∧
    (∀ v, request0.CreationToken = "" → mint = Except.ok v →
      p.CreationToken = v.CreationToken) := by
  obtain ⟨r1, hmt1, hp1⟩ := createVolume_calls_mem project mint call rand request0 volType p hp
  obtain ⟨r2, hmt2, hq1⟩ := createVolume_calls_mem project mint call rand request0 volType q hq
  rw [hmt1] at hmt2
  injection hmt2 with h12
  subst h12
  subst hp1
  subst hq1
  have htok := mintTokenStep_token mint request0 r1 hmt1
  refine ⟨rfl, ?_, ?_⟩
  · intro hne
    exact htok.1 hne
  · intro v h1 h2
    exact htok.2 v h1 h2

/-- Mint outcome carrying a concrete server-assigned creation token. -/
def c2mint : volumeResult := { (default : volumeResult) with CreationToken := "minted" }

/-- A success-status response whose body decodes as a create result. -/
def c2resp : apiResponse :=
  { raw := "", checkerErr := none, codeMsg := none,
    createResult := some default, volumeList := none }

/-- The parameters submitted by the concrete run used in the C2 witness. -/
def c2params : volumeRequest :=
  resolveNetwork ("proj") { (default : volumeRequest) with CreationToken := "minted" }

/-- C2 witness: the token-constancy theorem applied at a concrete run whose
caller supplied no token, so the minted token is the one submitted. -/
theorem createVolume_creationToken_constant_witness :
    c2params.CreationToken = "minted" := by
  have h := createVolume_creationToken_constant ("proj") (Except.ok c2mint)
    (fun _ => CallOutcome.reply c2resp) (fun _ => 0) default ("Volumes") c2params c2params
    (by decide) (by decide)
  exact (h.2.2 c2mint rfl rfl).trans rfl

/-- C9 (amended): the create machinery mutates exactly two fields of the
caller request: the creation token (when minted) and the network field,
which is rewritten once to its fully qualified form before the first
submission; every other field is identical, on every submitted attempt and in
the final mutated request, to its value when the caller submitted it. -/
theorem createVolume_frame
    (project : String) (mint : Except String volumeResult)
    (call : Nat → CallOutcome) (rand : Nat → Nat)
    (request0 : volumeRequest) (volType : String) (p : volumeRequest)
    (hp : p ∈ (createVolume project mint call rand request0 volType).calls) :
    (p.Name = request0.Name ∧ p.Region = request0.Region ∧
     p.ProtocolTypes = request0.ProtocolTypes ∧ p.Size = request0.Size ∧
     p.ServiceLevel = request0.ServiceLevel ∧ p.SnapshotPolicy = request0.SnapshotPolicy ∧
     p.ExportPolicy = request0.ExportPolicy ∧ p.VolumeID = request0.VolumeID ∧
     p.Zone = request0.Zone ∧ p.StorageClass = request0.StorageClass ∧
     p.SharedVpcProjectNumber = request0.SharedVpcProjectNumber) ∧
    ((createVolume project mint call rand request0 volType).finalRequest.Name = request0.Name ∧
     (createVolume project mint call rand request0 volType).finalRequest.Region
       = request0.Region ∧
     (createVolume project mint call rand request0 volType).finalRequest.ProtocolTypes
       = request0.ProtocolTypes ∧
     (createVolume project mint call rand request0 volType).finalRequest.Size = request0.Size ∧
     (createVolume project mint call rand request0 volType).finalRequest.ServiceLevel
       = request0.ServiceLevel ∧
     (createVolume project mint call rand request0 volType).finalRequest.SnapshotPolicy
       = request0.SnapshotPolicy ∧
     (createVolume project mint call rand request0 volType).finalRequest.ExportPolicy
       = request0.ExportPolicy ∧
     (createVolume project mint call rand request0 volType).finalRequest.VolumeID
       = request0.VolumeID ∧
     (createVolume project mint call rand request0 volType).finalRequest.Zone = request0.Zone ∧
     (createVolume project mint call rand request0 volType).finalRequest.StorageClass
       = request0.StorageClass ∧
     (createVolume project mint call rand request0 volType).finalRequest.SharedVpcProjectNumber
       = request0.SharedVpcProjectNumber) := by
  obtain ⟨r1, hmt, hp1⟩ := createVolume_calls_mem project mint call rand request0 volType p hp
  have hshape := mintTokenStep_shape mint request0 r1 hmt
  subst hp1
  constructor
  · rw [hshape]
    simp [resolveNetwork]
  · rw [createVolume_finalRequest_ok project mint call rand request0 volType r1 hmt, hshape]
    simp [resolveNetwork]

/-- A caller request with a token and an unqualified network name. -/
def c9request : volumeRequest :=
  { (default : volumeRequest) with CreationToken := "tok", Network := "net1" }

/-- A success-status response used by the C9 concrete runs. -/
def c9resp : apiResponse :=
  { raw := "", checkerErr := none, codeMsg := none,
    createResult := some default, volumeList := none }

/-- C9 counterexample: the network field of the caller request is also
mutated by the create path, refuting the claim that the creation token is the
only mutated field. -/
theorem createVolume_frame_counterexample :
    (createVolume ("proj") (Except.ok default) (fun _ => CallOutcome.reply c9resp)
        (fun _ => 0) c9request ("Volumes")).finalRequest.Network
      = "projects/proj/global/networks/net1" ∧
    c9request.Network = "net1" ∧
    ¬ ((createVolume ("proj") (Except.ok default) (fun _ => CallOutcome.reply c9resp)
        (fun _ => 0) c9request ("Volumes")).finalRequest.Network = c9request.Network) := by
  refine ⟨rfl, rfl, ?_⟩
  intro h
  rw [show (createVolume ("proj") (Except.ok default) (fun _ => CallOutcome.reply c9resp)
      (fun _ => 0) c9request ("Volumes")).finalRequest.Network
    = "projects/proj/global/networks/net1" from rfl] at h
  simp [c9request] at h

/-- C9 witness: the two-field frame theorem applied at a concrete
single-attempt run. -/
theorem createVolume_frame_witness :
    (resolveNetwork ("proj") c9request).Name = c9request.Name ∧
    (createVolume ("proj") (Except.ok default) (fun _ => CallOutcome.reply c9resp)
        (fun _ => 0) c9request ("Volumes")).finalRequest.Zone = c9request.Zone := by
  have h := createVolume_frame ("proj") (Except.ok default)
    (fun _ => CallOutcome.reply c9resp) (fun _ => 0) c9request ("Volumes")
    (resolveNetwork ("proj") c9request) (by decide)
  exact ⟨h.1.1, h.2.2.2.2.2.2.2.2.2.1⟩

/-- C3 (amended): on the first attempt, a non-success response whose decoded
code is 500 and whose message is none of the known transient literals for the
operation is fatal, returning the status-check error with no retry (shown for
both the create path and the delete path); on subsequent attempts within a
retry loop, however, a decoded code of 500 leads to a further retry while
budget remains, regardless of the message. -/
theorem unmatched500_firstAttemptFatal_midLoopRetried
    (project : String) (mint : Except String volumeResult)
    (call : Nat → CallOutcome) (rand : Nat → Nat)
    (request0 : volumeRequest) (volType : String)
    (resp : apiResponse) (ce : String) (env : apiErrorResponse) :
    (request0.CreationToken ≠ "" → call 0 = CallOutcome.reply resp →
      resp.checkerErr = some ce → resp.codeMsg = some env → env.Code = 500 →
      env.Message ≠ spawnJobCreationErrorMessage →
      env.Message ≠ contextDeadlineExceededErrorMessage →
      (createVolume project mint call rand request0 volType).result = Except.error ce ∧
      (createVolume project mint call rand request0 volType).calls.length = 1 ∧
      (createVolume project mint call rand request0 volType).sleeps = []) ∧
    (call 0 = CallOutcome.reply resp → resp.checkerErr = some ce →
      resp.codeMsg = some env → env.Code = 500 →
      env.Message ≠ spawnJobDeletionErrorMessage →
      (deleteVolume call rand request0).result = Except.error ce ∧
      (deleteVolume call rand request0).calls = 1 ∧
      (deleteVolume call rand request0).sleeps = []) ∧
    (∀ lo hi params lastErr k n, call k = CallOutcome.reply resp →
      resp.codeMsg = some env → env.Code = 500 →
      2 ≤ (createVolumeRetryLoop lo hi params call rand lastErr k (n + 2)).calls.length) := by
  refine ⟨?_, ?_, ?_⟩
  · intro h0 hc hck hcm hcode hmsg1 hmsg2
    have hmt : mintTokenStep mint request0 = Except.ok request0 := by
      unfold mintTokenStep
      rw [if_neg h0]
    unfold createVolume
    simp [hmt, hc, hck, hcm, hcode, hmsg1, hmsg2]
  · intro hc hck hcm hcode hmsg
    unfold deleteVolume
    simp [hc, hck, hcm, hcode, hmsg]
  · intro lo hi params lastErr k n hc hcm hcode
    rw [createVolumeRetryLoop_step_busy lo hi params call rand lastErr k (n + 1) resp env hc hcm
      hcode]
    have hpos := createVolumeRetryLoop_calls_pos lo hi params call rand resp.checkerErr (k + 1) n
    show 2 ≤ (params :: (createVolumeRetryLoop lo hi params call rand resp.checkerErr (k + 1)
      (n + 1)).calls).length
    simp only [List.length_cons]
    omega

/-- A retried response carrying a 500 with a message that matches no
transient literal. -/
def c3unmatchedresp : apiResponse :=
  { raw := "", checkerErr := some ("e1"),
    codeMsg := some { Code := 500, Message := "other failure" },
    createResult := none, volumeList := none }

/-- A retried response carrying error code 0 and a decodable result. -/
def c3successresp : apiResponse :=
  { raw := "", checkerErr := none, codeMsg := some { Code := 0, Message := "" },
    createResult := some default, volumeList := none }

/-- Oracle for the C3 counterexample: first a create-exhaustion 500, then a
500 with an unmatched message, then a code-0 success. -/
def c3call : Nat → CallOutcome
  | 0 => CallOutcome.reply c1resp
  | 1 => CallOutcome.reply c3unmatchedresp
  | _ => CallOutcome.reply c3successresp

/-- C3 counterexample: after a retried response with code 500 and a message
that matches no transient literal, the loop issues a further call (three
calls in total, ending in success), refuting the claim that unmatched 500s
are fatal and unretried on every subsequent attempt. -/
theorem unmatched500_midLoop_counterexample :
    (createVolume ("proj") (Except.ok default) c3call (fun _ => 0) c1request
        ("Volumes")).calls.length = 3 ∧
    (createVolume ("proj") (Except.ok default) c3call (fun _ => 0) c1request
        ("Volumes")).result = Except.ok default := by
  exact ⟨by rfl, by rfl⟩

/-- A first-attempt non-success response with an unmatched 500 message. -/
def c3fatalresp : apiResponse :=
  { raw := "", checkerErr := some ("e0"),
    codeMsg := some { Code := 500, Message := "other failure" },
    createResult := none, volumeList := none }

/-- C3 witness: the amended theorem applied at a concrete unmatched-500 first
attempt and a concrete mid-loop unmatched-500 retry. -/
theorem unmatched500_firstAttemptFatal_midLoopRetried_witness :
    (createVolume ("proj") (Except.ok default) (fun _ => CallOutcome.reply c3fatalresp)
        (fun _ => 0) c1request ("Volumes")).result = Except.error ("e0") ∧
    (deleteVolume (fun _ => CallOutcome.reply c3fatalresp) (fun _ => 0) c1request).calls = 1 ∧
    2 ≤ (createVolumeRetryLoop 30 50 default (fun _ => CallOutcome.reply c3fatalresp)
        (fun _ => 0) none 1 2).calls.length := by
  have h := unmatched500_firstAttemptFatal_midLoopRetried ("proj") (Except.ok default)
    (fun _ => CallOutcome.reply c3fatalresp) (fun _ => 0) c1request ("Volumes")
    c3fatalresp ("e0") { Code := 500, Message := "other failure" }
  refine ⟨(h.1 (by decide) rfl rfl rfl rfl (by decide) (by decide)).1, ?_, ?_⟩
  · exact (h.2.1 rfl rfl rfl rfl (by decide)).2.1
  · exact h.2.2 30 50 default none 1 0 rfl rfl rfl

/-- C6: within a retry loop (create or delete alike), a retried call whose
response decodes to the error envelope with code 0 and empty message
terminates the loop as success, decoding the body as the real result of the
operation, and no further retry occurs. -/
theorem retryLoop_code0_success
    (call : Nat → CallOutcome) (rand : Nat → Nat) (resp : apiResponse)
    (res : createVolumeResult) (lo hi : Nat) (params : volumeRequest)
    (lastErr : Option String) (k n : Nat)
    (hc : call k = CallOutcome.reply resp)
    (hcm : resp.codeMsg = some { Code := 0, Message := "" })
    (hr : resp.createResult = some res) :
    createVolumeRetryLoop lo hi params call rand lastErr k (n + 1) =
      { result := Except.ok res, calls := [params],
        sleeps := [nextRandomInt lo hi (rand k)] } ∧
    deleteVolumeRetryLoop call rand lastErr k (n + 1) =
      { result := Except.ok (), calls := 1,
        sleeps := [nextRandomInt 30 50 (rand k)] } := by
  constructor
  · simp [createVolumeRetryLoop, hc, hcm, hr]
  · simp [deleteVolumeRetryLoop, hc, hcm, hr]

/-- A mid-loop response with error code 0, empty message and a decodable
create result. -/
def c6resp : apiResponse :=
  { raw := "", checkerErr := none, codeMsg := some { Code := 0, Message := "" },
    createResult := some default, volumeList := none }

/-- C6 witness: the mid-loop success theorem applied at a concrete retried
call. -/
theorem retryLoop_code0_success_witness :
    createVolumeRetryLoop 30 50 default (fun _ => CallOutcome.reply c6resp) (fun _ => 0)
        none 1 10 =
      { result := Except.ok default, calls := [default],
        sleeps := [nextRandomInt 30 50 0] } ∧
    deleteVolumeRetryLoop (fun _ => CallOutcome.reply c6resp) (fun _ => 0) none 1 10 =
      { result := Except.ok (), calls := 1, sleeps := [nextRandomInt 30 50 0] } :=
  retryLoop_code0_success (fun _ => CallOutcome.reply c6resp) (fun _ => 0) c6resp default
    30 50 default none 1 9 rfl rfl rfl

/-- C7: a non-success response whose raw body cannot be decoded into the
error envelope is fatal with the raw body text as the error message and is
never retried: shown for the first attempt of the create path, the first
attempt of the delete path, and a retried attempt inside the create loop. -/
theorem undecodableBody_fatal
    (project : String) (mint : Except String volumeResult)
    (call : Nat → CallOutcome) (rand : Nat → Nat)
    (request0 : volumeRequest) (volType : String)
    (resp : apiResponse) (ce : String) :
    (request0.CreationToken ≠ "" → call 0 = CallOutcome.reply resp →
      resp.checkerErr = some ce → resp.codeMsg = none →
      (createVolume project mint call rand request0 volType).result = Except.error resp.raw ∧
      (createVolume project mint call rand request0 volType).calls.length = 1 ∧
      (createVolume project mint call rand request0 volType).sleeps = []) ∧
    (call 0 = CallOutcome.reply resp → resp.checkerErr = some ce → resp.codeMsg = none →
      (deleteVolume call rand request0).result = Except.error resp.raw ∧
      (deleteVolume call rand request0).calls = 1) ∧
    (∀ lo hi params lastErr k n, call k = CallOutcome.reply resp → resp.codeMsg = none →
      createVolumeRetryLoop lo hi params call rand lastErr k (n + 1) =
        { result := Except.error resp.raw, calls := [params],
          sleeps := [nextRandomInt lo hi (rand k)] }) := by
  refine ⟨?_, ?_, ?_⟩
  · intro h0 hc hck hcm
    have hmt : mintTokenStep mint request0 = Except.ok request0 := by
      unfold mintTokenStep
      rw [if_neg h0]
    unfold createVolume
    simp [hmt, hc, hck, hcm]
  · intro hc hck hcm
    unfold deleteVolume
    simp [hc, hck, hcm]
  · intro lo hi params lastErr k n hc hcm
    simp [createVolumeRetryLoop, hc, hcm]

/-- A non-success response whose body decodes into no known shape. -/
def c7resp : apiResponse :=
  { raw := "garbage", checkerErr := some ("status error"), codeMsg := none,
    createResult := none, volumeList := none }

/-- C7 witness: the fail-closed theorem applied at a concrete undecodable
response on all three covered paths. -/
theorem undecodableBody_fatal_witness :
    (createVolume ("proj") (Except.ok default) (fun _ => CallOutcome.reply c7resp)
        (fun _ => 0) c1request ("Volumes")).result = Except.error ("garbage") ∧
    (deleteVolume (fun _ => CallOutcome.reply c7resp) (fun _ => 0) c1request).calls = 1 ∧
    createVolumeRetryLoop 30 50 default (fun _ => CallOutcome.reply c7resp) (fun _ => 0)
        none 1 5 =
      { result := Except.error ("garbage"), calls := [default],
        sleeps := [nextRandomInt 30 50 0] } := by
  have h := undecodableBody_fatal ("proj") (Except.ok default)
    (fun _ => CallOutcome.reply c7resp) (fun _ => 0) c1request ("Volumes") c7resp
    ("status error")
  exact ⟨(h.1 (by decide) rfl rfl rfl).1, (h.2.1 rfl rfl rfl).2,
    h.2.2 30 50 default none 1 4 rfl rfl⟩

lemma addAuthHeaders_ok (readFile : String → Except String String)
    (mintJWT : String → String → Except String String)
    (serviceAccount credentials audience : String)
    (req0 req : HTTPRequest)
    (h : addAuthHeaders readFile mintJWT serviceAccount credentials audience req0
      = Except.ok req) :
    req.method = req0.method ∧ req.url = req0.url ∧ req.body = req0.body ∧
    ∃ keyBytes jwt,
      (if credentials ≠ "" then keyBytes = credentials
       else readFile serviceAccount = Except.ok keyBytes) ∧
      mintJWT keyBytes audience = Except.ok jwt ∧
      req.headers = [("Content-Type", "application/json"),
                     ("Authorization", "Bearer " ++ jwt)] := by
  simp only [addAuthHeaders] at h
  by_cases hcred : credentials ≠ ""
  · rw [if_pos hcred] at h
    cases hjwt : mintJWT credentials audience with
    | error e => simp only [hjwt] at h; simp at h
    | ok jwt =>
      simp only [hjwt] at h
      injection h with h2
      subst h2
      exact ⟨rfl, rfl, rfl, credentials, jwt, by rw [if_pos hcred], hjwt, rfl⟩
  · rw [if_neg hcred] at h
    cases hrf : readFile serviceAccount with
    | error e => simp only [hrf] at h; simp at h
    | ok kb =>
      simp only [hrf] at h
      cases hjwt : mintJWT kb audience with
      | error e => simp only [hjwt] at h; simp at h
      | ok jwt =>
        simp only [hjwt] at h
        injection h with h2
        subst h2
        refine ⟨rfl, rfl, rfl, kb, jwt, ?_, hjwt, rfl⟩
        rw [if_neg hcred]

/-- C5: a successfully built HTTP request carries no body for the GET and
DELETE verbs even when a body value is supplied, carries the JSON
serialization of the supplied parameters for every other verb, and always
carries the JSON content-type header together with a bearer-authorization
header holding the token minted from the resolved key bytes. -/
theorem BuildHTTPReq_spec {α : Type} (marshal : α → Except String String)
    (readFile : String → Except String String)
    (mintJWT : String → String → Except String String)
    (r : Request α) (host serviceAccount credentials audience baseURL : String)
    (req : HTTPRequest)
    (h : BuildHTTPReq marshal readFile mintJWT r host serviceAccount credentials audience
      baseURL = Except.ok req) :
    req.method = r.Method ∧ req.url = host ++ baseURL ∧
    ((r.Method = "GET" ∨ r.Method = "DELETE") → req.body = none) ∧
    (r.Method ≠ "GET" → r.Method ≠ "DELETE" →
      ∃ b, marshal r.Params = Except.ok b ∧ req.body = some b) ∧
    (∃ keyBytes jwt,
      (if credentials ≠ "" then keyBytes = credentials
       else readFile serviceAccount = Except.ok keyBytes) ∧
      mintJWT keyBytes audience = Except.ok jwt ∧
      req.headers = [("Content-Type", "application/json"),
                     ("Authorization", "Bearer " ++ jwt)]) := by
  simp only [BuildHTTPReq] at h
  by_cases hm : r.Method ≠ "GET" ∧ r.Method ≠ "DELETE"
  · rw [if_pos hm] at h
    cases hmar : marshal r.Params with
    | error e => simp only [hmar] at h; simp at h
    | ok bodyJSON =>
      simp only [hmar] at h
      have ha := addAuthHeaders_ok readFile mintJWT serviceAccount credentials audience _ req h
      refine ⟨ha.1, ha.2.1, ?_, ?_, ha.2.2.2⟩
      · intro hor
        cases hor with
        | inl h1 => exact absurd h1 hm.1
        | inr h1 => exact absurd h1 hm.2
      · intro _ _
        exact ⟨bodyJSON, rfl, ha.2.2.1⟩
  · rw [if_neg hm] at h
    have ha := addAuthHeaders_ok readFile mintJWT serviceAccount credentials audience _ req h
    refine ⟨ha.1, ha.2.1, ?_, ?_, ha.2.2.2⟩
    · intro _
      exact ha.2.2.1
    · intro h1 h2
      exact absurd ⟨h1, h2⟩ hm

/-- Marshalling oracle for the C5 witness. -/
def c5marshal : Nat → Except String String := fun n => Except.ok (toString n)

/-- File-reading oracle for the C5 witness. -/
def c5readFile : String → Except String String := fun _ => Except.ok ("keydata")

/-- JWT-minting oracle for the C5 witness. -/
def c5mintJWT : String → String → Except String String := fun kb aud => Except.ok (kb ++ aud)

/-- The request built by the C5 witness POST run. -/
def c5req : HTTPRequest :=
  { method := "POST", url := "hostbase", body := some ("7"),
    headers := [("Content-Type", "application/json"), ("Authorization", "Bearer credaud")] }

/-- The request built by the C5 witness GET run. -/
def c5reqGet : HTTPRequest :=
  { method := "GET", url := "hostbase", body := none,
    headers := [("Content-Type", "application/json"), ("Authorization", "Bearer credaud")] }

/-- C5 witness: the request-builder theorem applied at a concrete POST run
(body present, equal to the marshalled parameters) and a concrete GET run
(body absent). -/
theorem BuildHTTPReq_spec_witness :
    c5req.method = "POST" ∧
    (∃ b, c5marshal 7 = Except.ok b ∧ c5req.body = some b) ∧
    c5reqGet.body = none := by
  have h1 := BuildHTTPReq_spec c5marshal c5readFile c5mintJWT
    { Method := "POST", Params := 7 } ("host") ("sa") ("cred") ("aud") ("base") c5req (by rfl)
  have h2 := BuildHTTPReq_spec c5marshal c5readFile c5mintJWT
    { Method := "GET", Params := 7 } ("host") ("sa") ("cred") ("aud") ("base") c5reqGet (by rfl)
  exact ⟨h1.1, h1.2.2.2.1 (by decide) (by decide), h2.2.2.1 (Or.inl rfl)⟩

/-- The listed volumes whose name equals the requested name. -/
def nameMatches (volume : volumeRequest) (vols : List volumeResult) : List volumeResult :=
  vols.filter (fun w => w.Name == volume.Name)

/-- The listed volumes whose creation token equals the requested token. -/
def tokenMatches (volume : volumeRequest) (vols : List volumeResult) : List volumeResult :=
  vols.filter (fun w => w.CreationToken == volume.CreationToken)

lemma getVolumeLookupLoop_noMatches (volume : volumeRequest)
    (ht : volume.CreationToken = "") :
    ∀ vols, nameMatches volume vols = [] → ∀ count res,
      getVolumeLookupLoop volume vols count res =
        if count > 1 then Except.error ("Found more than one volume : " ++ volume.Name)
        else if count = 0 then Except.error ("No volume found for : " ++ volume.Name)
        else Except.ok res := by
  intro vols
  induction vols with
  | nil =>
    intro _ count res
    simp only [getVolumeLookupLoop]
    rw [if_neg (by simp [ht])]
  | cons w vs ih =>
    intro hnm count res
    have hw : ¬ (w.Name = volume.Name) := by
      intro heq
      simp [nameMatches, List.filter_cons, heq] at hnm
    simp only [getVolumeLookupLoop]
    rw [if_neg (by simp [ht]), if_neg (by simp [hw])]
    apply ih
    simpa [nameMatches, List.filter_cons, hw] using hnm

lemma getVolumeLookupLoop_ambiguous (volume : volumeRequest)
    (ht : volume.CreationToken = "") (hn : volume.Name ≠ "") :
    ∀ vols count res, 1 < count + (nameMatches volume vols).length →
      getVolumeLookupLoop volume vols count res =
        Except.error ("Found more than one volume : " ++ volume.Name) := by
  intro vols
  induction vols with
  | nil =>
    intro count res hcount
    simp [nameMatches] at hcount
    simp only [getVolumeLookupLoop]
    rw [if_neg (by simp [ht]), if_pos (by omega)]
  | cons w vs ih =>
    intro count res hcount
    simp only [getVolumeLookupLoop]
    rw [if_neg (by simp [ht])]
    by_cases hw : w.Name = volume.Name
    · rw [if_pos ⟨ht, hn, hw⟩]
      apply ih
      have hfc : nameMatches volume (w :: vs) = w :: nameMatches volume vs := by
        simp [nameMatches, List.filter_cons, hw]
      rw [hfc] at hcount
      simp only [List.length_cons] at hcount
      omega
    · rw [if_neg (by simp [hw])]
      apply ih
      have hfc : nameMatches volume (w :: vs) = nameMatches volume vs := by
        simp [nameMatches, List.filter_cons, hw]
      rw [hfc] at hcount
      omega

lemma getVolumeLookupLoop_uniqueName (volume : volumeRequest) (v : volumeResult)
    (ht : volume.CreationToken = "") (hn : volume.Name ≠ "") :
    ∀ vols count res, nameMatches volume vols = [v] → count = 0 →
      getVolumeLookupLoop volume vols count res = Except.ok v := by
  intro vols
  induction vols with
  | nil =>
    intro count res hnm _
    simp [nameMatches] at hnm
  | cons w vs ih =>
    intro count res hnm hcount
    subst hcount
    simp only [getVolumeLookupLoop]
    rw [if_neg (by simp [ht])]
    by_cases hw : w.Name = volume.Name
    · rw [if_pos ⟨ht, hn, hw⟩]
      have h2 : w = v ∧ nameMatches volume vs = [] := by
        have hx := hnm
        simp [nameMatches, List.filter_cons, hw] at hx
        refine ⟨hx.1, ?_⟩
        simpa [nameMatches, List.filter_eq_nil_iff] using hx.2
      rw [getVolumeLookupLoop_noMatches volume ht vs h2.2 (0 + 1) w]
      simp [h2.1]
    · rw [if_neg (by simp [hw])]
      apply ih
      · simpa [nameMatches, List.filter_cons, hw] using hnm
      · rfl

lemma getVolumeLookupLoop_tokenOnly (volume : volumeRequest) (v : volumeResult)
    (ht : volume.CreationToken ≠ "") (hn : volume.Name = "") :
    ∀ vols count res, tokenMatches volume vols = [v] →
      getVolumeLookupLoop volume vols count res = Except.ok v := by
  intro vols
  induction vols with
  | nil =>
    intro count res htm
    simp [tokenMatches] at htm
  | cons w vs ih =>
    intro count res htm
    simp only [getVolumeLookupLoop]
    by_cases hw : w.CreationToken = volume.CreationToken
    · rw [if_pos ⟨ht, hw⟩]
      have h2 : w = v := by
        have hx := htm
        simp [tokenMatches, List.filter_cons, hw] at hx
        exact hx.1
      rw [if_neg (by simp [hn]), if_neg (by simp [hn])]
      rw [h2]
    · rw [if_neg (by simp [hw]), if_neg (by simp [ht])]
      apply ih
      simpa [tokenMatches, List.filter_cons, hw] using htm

lemma getVolumeLookupLoop_tokenNoMatch (volume : volumeRequest)
    (ht : volume.CreationToken ≠ "") :
    ∀ vols count res, (∀ v ∈ vols, v.CreationToken ≠ volume.CreationToken) →
      getVolumeLookupLoop volume vols count res =
        Except.error ("Given CreationToken does not exist : " ++ volume.CreationToken) := by
  intro vols
  induction vols with
  | nil =>
    intro count res _
    simp only [getVolumeLookupLoop]
    rw [if_pos ht]
  | cons w vs ih =>
    intro count res hno
    simp only [getVolumeLookupLoop]
    rw [if_neg (by simp [hno w (List.mem_cons_self w vs)]), if_neg (by simp [ht])]
    exact ih count res (fun v hv => hno v (by simp [hv]))

lemma getVolumeLookupLoop_tokenNameConflict (volume : volumeRequest) (v : volumeResult)
    (ht : volume.CreationToken ≠ "") (hn : volume.Name ≠ "") (hvn : v.Name ≠ volume.Name) :
    ∀ vols count res, tokenMatches volume vols = [v] →
      getVolumeLookupLoop volume vols count res =
        Except.error ("Given CreationToken does not match with given volume name : "
          ++ volume.Name) := by
  intro vols
  induction vols with
  | nil =>
    intro count res htm
    simp [tokenMatches] at htm
  | cons w vs ih =>
    intro count res htm
    simp only [getVolumeLookupLoop]
    by_cases hw : w.CreationToken = volume.CreationToken
    · have h2 : w = v := by
        have hx := htm
        simp [tokenMatches, List.filter_cons, hw] at hx
        exact hx.1
      subst h2
      rw [if_pos ⟨ht, hw⟩]
      rw [if_neg (by simp [hvn]), if_pos ⟨hn, hvn⟩]
    · rw [if_neg (by simp [hw]), if_neg (by simp [ht])]
      apply ih
      simpa [tokenMatches, List.filter_cons, hw] using htm

lemma getVolumeByNameOrCreationToken_decoded (volume : volumeRequest) (resp : apiResponse)
    (vols : List volumeResult)
    (hne : ¬ (volume.Name = "" ∧ volume.CreationToken = ""))
    (hck : resp.checkerErr = none) (hvl : resp.volumeList = some vols) :
    getVolumeByNameOrCreationToken (CallOutcome.reply resp) volume =
      (getVolumeLookupLoop volume vols 0 default, 1) := by
  unfold getVolumeByNameOrCreationToken
  rw [if_neg hne]
  simp [hck, hvl]

/-- C8: caller-side disambiguation over the decoded regional list: a
name-only lookup matching more than one listed volume is ambiguous; a
name-only lookup with a unique match returns that volume; a token-only lookup
whose token is carried by exactly one listed volume returns that volume
regardless of name collisions elsewhere; a token matching no listed volume is
not-found; a matching token combined with a name disagreeing with the matched
name of the matched volume is a conflict. -/
theorem getVolumeByNameOrCreationToken_disambiguation
    (volume : volumeRequest) (resp : apiResponse) (vols : List volumeResult)
    (hck : resp.checkerErr = none) (hvl : resp.volumeList = some vols) :
    (volume.CreationToken = "" → volume.Name ≠ "" →
      1 < (nameMatches volume vols).length →
      (getVolumeByNameOrCreationToken (CallOutcome.reply resp) volume).1 =
        Except.error ("Found more than one volume : " ++ volume.Name)) ∧
    (∀ v, volume.CreationToken = "" → volume.Name ≠ "" →
      nameMatches volume vols = [v] →
      (getVolumeByNameOrCreationToken (CallOutcome.reply resp) volume).1 = Except.ok v) ∧
    (∀ v, volume.CreationToken ≠ "" → volume.Name = "" →
      tokenMatches volume vols = [v] →
      (getVolumeByNameOrCreationToken (CallOutcome.reply resp) volume).1 = Except.ok v) ∧
    (volume.CreationToken ≠ "" →
      (∀ v ∈ vols, v.CreationToken ≠ volume.CreationToken) →
      (getVolumeByNameOrCreationToken (CallOutcome.reply resp) volume).1 =
        Except.error ("Given CreationToken does not exist : " ++ volume.CreationToken)) ∧
    (∀ v, volume.CreationToken ≠ "" → volume.Name ≠ "" →
      tokenMatches volume vols = [v] → v.Name ≠ volume.Name →
      (getVolumeByNameOrCreationToken (CallOutcome.reply resp) volume).1 =
        Except.error ("Given CreationToken does not match with given volume name : "
          ++ volume.Name)) := by
  refine ⟨?_, ?_, ?_, ?_, ?_⟩
  · intro ht hn hlen
    rw [getVolumeByNameOrCreationToken_decoded volume resp vols (by tauto) hck hvl]
    exact getVolumeLookupLoop_ambiguous volume ht hn vols 0 default (by simpa using hlen)
  · intro v ht hn hnm
    rw [getVolumeByNameOrCreationToken_decoded volume resp vols (by tauto) hck hvl]
    exact getVolumeLookupLoop_uniqueName volume v ht hn vols 0 default hnm rfl
  · intro v ht hn htm
    rw [getVolumeByNameOrCreationToken_decoded volume resp vols (by tauto) hck hvl]
    exact getVolumeLookupLoop_tokenOnly volume v ht hn vols 0 default htm
  · intro ht hno
    rw [getVolumeByNameOrCreationToken_decoded volume resp vols (by tauto) hck hvl]
    exact getVolumeLookupLoop_tokenNoMatch volume ht vols 0 default hno
  · intro v ht hn htm hvn
    rw [getVolumeByNameOrCreationToken_decoded volume resp vols (by tauto) hck hvl]
    exact getVolumeLookupLoop_tokenNameConflict volume v ht hn hvn vols 0 default htm

/-- First listed volume named vol-a. -/
def volA1 : volumeResult :=
  { (default : volumeResult) with Name := "vol-a", CreationToken := "t1" }

/-- Second listed volume named vol-a, carrying the token t2. -/
def volA2 : volumeResult :=
  { (default : volumeResult) with Name := "vol-a", CreationToken := "t2" }

/-- Listed volume named vol-b. -/
def volB : volumeResult :=
  { (default : volumeResult) with Name := "vol-b", CreationToken := "t3" }

/-- The regional list of the C8 witness: two volumes named vol-a, one vol-b. -/
def c8vols : List volumeResult := [volA1, volA2, volB]

/-- A success-status response decoding to the C8 regional list. -/
def c8resp : apiResponse :=
  { raw := "", checkerErr := none, codeMsg := none, createResult := none,
    volumeList := some c8vols }

/-- Lookup request by name vol-a only. -/
def c8reqNameA : volumeRequest := { (default : volumeRequest) with Name := "vol-a" }

/-- Lookup request by name vol-b only. -/
def c8reqNameB : volumeRequest := { (default : volumeRequest) with Name := "vol-b" }

/-- Lookup request by token t2 only. -/
def c8reqToken : volumeRequest := { (default : volumeRequest) with CreationToken := "t2" }

/-- C8 witness: the disambiguation theorem applied at the concrete regional
list with a duplicated name: name vol-a is ambiguous, name vol-b returns its
unique volume, and token t2 returns its unique carrier despite the name
collisions. -/
theorem getVolumeByNameOrCreationToken_disambiguation_witness :
    (getVolumeByNameOrCreationToken (CallOutcome.reply c8resp) c8reqNameA).1 =
      Except.error ("Found more than one volume : vol-a") ∧
    (getVolumeByNameOrCreationToken (CallOutcome.reply c8resp) c8reqNameB).1 =
      Except.ok volB ∧
    (getVolumeByNameOrCreationToken (CallOutcome.reply c8resp) c8reqToken).1 =
      Except.ok volA2 := by
  have hA := getVolumeByNameOrCreationToken_disambiguation c8reqNameA c8resp c8vols rfl rfl
  have hB := getVolumeByNameOrCreationToken_disambiguation c8reqNameB c8resp c8vols rfl rfl
  have hT := getVolumeByNameOrCreationToken_disambiguation c8reqToken c8resp c8vols rfl rfl
  exact ⟨hA.1 rfl (by decide) (by decide),
         hB.2.1 volB rfl (by decide) (by decide),
         hT.2.2.1 volA2 (by decide) rfl (by decide)⟩

end NetappGcp
